import Mathlib

/-!
Verification of the coin-trade-sdk provider layer (Binance, Upbit, Bithumb, Okx).

This file shallowly embeds the request-signing, endpoint-registry,
symbol-translation and response-normalization code of the repository.
Rust strings are Lean `String`s (symbol manipulation is carried out on
`List Char`, the model of `&str` as a character sequence); `BTreeMap`s are
sorted association lists; `serde_json::Value` is the inductive `Json`;
fallible Rust code returns `Except String` and code that can `panic!`/
`unwrap` returns `Outcome`.  Cryptographic primitives (HMAC, SHA-512,
base64, JWT compact serialization) come from external crates, so theorems
are parameterized over them; the byte-level encoders defined in this file
(`hexEncode`) model the `hex` crate exactly.
-/

namespace CoinTrade

/-- Result of running a piece of Rust code that may return a value,
return an `Err`, or panic (`unwrap` on `None`/`Err`, index out of bounds). -/
inductive Outcome (α : Type) where
  | ok : α → Outcome α
  | err : String → Outcome α
  | panic : String → Outcome α
deriving DecidableEq, Repr

/-- Model of `serde_json::Value`.  A JSON number keeps its wire text. -/
inductive Json where
  | null : Json
  | bool : Bool → Json
  | num : String → Json
  | str : String → Json
  | arr : List Json → Json
  | obj : List (String × Json) → Json

/-- `value["key"]` on a `serde_json::Value`: field of an object, `Null`
when the key is absent or the value is not an object. -/
def Json.index : Json → String → Json
  | .obj fields, k =>
    match fields.lookup k with
    | some v => v
    | none => .null
  | _, _ => .null

/-- `value[i]` with a `usize` index: element of an array, `Null` when out
of range or not an array. -/
def Json.atIndex : Json → Nat → Json
  | .arr xs, i =>
    match xs.get? i with
    | some v => v
    | none => .null
  | _, _ => .null

/-- `Value::as_str`. -/
def Json.as_str : Json → Option String
  | .str s => some s
  | _ => none

/-- `Value::as_array`. -/
def Json.as_array : Json → Option (List Json)
  | .arr xs => some xs
  | _ => none

/-- `Value::as_f64`, kept at the level of the wire text: a JSON number
answers `some` of its raw decimal text, everything else answers `none`.
The caller supplies the float parse/print composite where it matters. -/
def Json.as_f64_raw : Json → Option String
  | .num raw => some raw
  | _ => none

/-- Sorted association list modelling `BTreeMap<String, String>`. -/
abbrev Params : Type := List (String × String)

/-- Lexicographic strict order on character lists, the order `Ord` on
Rust `String`s induces (byte order; UTF-8 byte order and codepoint order
agree). -/
def charListLt : List Char → List Char → Bool
  | [], [] => false
  | [], _ :: _ => true
  | _ :: _, [] => false
  | a :: as, b :: bs =>
    if a.toNat < b.toNat then true
    else if a.toNat = b.toNat then charListLt as bs
    else false

/-- The key order of `BTreeMap<String, _>`. -/
def strLt (a b : String) : Bool :=
  charListLt a.toList b.toList

/-- `BTreeMap::insert`: replace an existing key, otherwise insert at the
sorted position. -/
def Params.insert (k v : String) : Params → Params
  | [] => [(k, v)]
  | (k', v') :: rest =>
    if strLt k k' then (k, v) :: (k', v') :: rest
    else if k = k' then (k, v) :: rest
    else (k', v') :: Params.insert k v rest

/-- `BTreeMap::from([...])`: fold the literal entries through `insert`. -/
def Params.ofList (l : List (String × String)) : Params :=
  l.foldl (fun m kv => m.insert kv.1 kv.2) []

/-- `BTreeMap::get`. -/
def Params.lookup (k : String) (p : Params) : Option String :=
  List.lookup k p

/-- `get_query_string` (src/lib.rs): iterate in map order, render
`key=value`, join with `&`.  No URL-escaping is applied. -/
def get_query_string (param : Params) : String :=
  String.intercalate "&" (param.map fun kv => kv.1 ++ "=" ++ kv.2)

/-- Rust `str::split(sep)` for a one-character separator, on the
character-list view of the string.  `"".split(c)` yields `[""]`. -/
def splitOnChar (c : Char) : List Char → List (List Char)
  | [] => [[]]
  | x :: xs =>
    match splitOnChar c xs with
    | [] => if x = c then [[], []] else [[x]]
    | h :: t => if x = c then [] :: h :: t else (x :: h) :: t

/-! ## Hex encoding (`hex::encode`, lowercase) -/

/-- Lowercase hexadecimal digit for a nibble. -/
def hexDigitChar (n : Nat) : Char :=
  if n < 10 then Char.ofNat (48 + n) else Char.ofNat (87 + n)

/-- Two lowercase hex digits of one byte, high nibble first. -/
def byteToHex (b : Nat) : List Char :=
  [hexDigitChar (b / 16 % 16), hexDigitChar (b % 16)]

/-- `hex::encode`: lowercase hex string of a byte sequence. -/
def hexEncode (bs : List Nat) : String :=
  String.mk ((bs.map byteToHex).flatten)

/-- Membership in the lowercase hexadecimal alphabet. -/
def isLowerHexChar (ch : Char) : Bool :=
  ("0123456789abcdef".toList).contains ch

/-! ## Shared domain types (src/lib.rs) -/

structure Price where
  exchange : String
  symbol : String
  price : String
deriving DecidableEq, Repr

structure OrderBookUnit where
  ask_price : String
  bid_price : String
  ask_size : String
  bid_size : String
deriving DecidableEq, Repr

structure OrderBook where
  market : String
  exchange : String
  orderbook_unit : List OrderBookUnit
deriving DecidableEq, Repr

/-- Transport-agnostic request descriptor: what `build_request` assembles
from method, URI, header list and `BTreeMap` body. -/
structure RequestDescriptor where
  method : String
  uri : String
  headers : List (String × String)
  body : Params
deriving DecidableEq, Repr

/-- JWT signing algorithm selected by the `Hmac<D>` key type handed to
`jwt::SignWithKey` (`Hmac<Sha256>` signs HS256, `Hmac<Sha512>` HS512). -/
inductive JwtAlg where
  | HS256 : JwtAlg
  | HS512 : JwtAlg
deriving DecidableEq, Repr

/-! ## The HTTP sender (src/lib.rs `send`) -/

/-- Body-encoding branch chosen inside `send`. -/
inductive BodyEncoding where
  | form : BodyEncoding
  | json : BodyEncoding
deriving DecidableEq, Repr

/-- The raw reqwest response; `bytes()` (the body read) may itself fail. -/
structure RawResponse where
  body_bytes : Except String (List Nat)

/-- Content-Type resolution in `send`: value of the `Content-Type` header,
defaulting to `application/json` when the header is absent. -/
def content_type_of (headers : List (String × String)) : String :=
  match List.lookup "Content-Type" headers with
  | some v => v
  | none => "application/json"

/-- The `match content_type` in `send`: form and json are encoded, any
other declared content type is an `Err "Unsupported Content-Type"`. -/
def choose_body_encoding (headers : List (String × String)) :
    Except String BodyEncoding :=
  match content_type_of headers with
  | "application/x-www-form-urlencoded" => .ok .form
  | "application/json" => .ok .json
  | _ => .error "Unsupported Content-Type"

/-- `send` (src/lib.rs): dispatch on content type, then execute the
request on the injected transport and read the body.  The source calls
`client.execute(request).await.unwrap()` and
`response.bytes().await.expect("Failed to get response body")`, so a
transport failure or a body-read failure panics instead of becoming an
`Err`; the model records those panics.  On success the body bytes are
returned (the status/header plumbing of `convert_reqwest_to_http` carries
no failure and is omitted). -/
def send (req : RequestDescriptor) (transport : Except String RawResponse) :
    Outcome (List Nat) :=
  match choose_body_encoding req.headers with
  | .error e => .err e
  | .ok _ =>
    match transport with
    | .error e => .panic ("called Result::unwrap on an Err value: " ++ e)
    | .ok response =>
      match response.body_bytes with
      | .error _ => .panic "Failed to get response body"
      | .ok bytes => .ok bytes

end CoinTrade

namespace CoinTrade.Binance

/-- Binance facade state (`struct Binance`). -/
structure State where
  api_url : String
  api_key : String
  secret : String
  endpoint : List (String × String × String)

/-- `Binance::validate_api_credentials`. -/
def validate_api_credentials (api_key secret : String) : Except String Unit :=
  if api_key = "" ∨ secret = "" then
    .error "API key and Secret cannot be empty"
  else .ok ()

/-- The endpoint `BTreeMap` built in `Binance::new`, in its sorted
iteration order. -/
def endpoints : List (String × String × String) :=
  [("cancel_order", "DELETE", "api/v3/order"),
   ("coin_list", "GET", "api/v3/exchangeInfo"),
   ("current_price", "GET", "api/v3/ticker/price"),
   ("make_order", "POST", "api/v3/order"),
   ("order_book", "GET", "api/v3/depth")]

/-- `Binance::new`. -/
def new (api_key secret : String) : Except String State := do
  validate_api_credentials api_key secret
  pure { api_url := "https://api1.binance.com/", api_key := api_key,
         secret := secret, endpoint := endpoints }

/-- `Binance::build_request`: pure assembly of the request descriptor
(the `http` builder only fails on malformed header names, which the
callers never produce). -/
def build_request (method uri : String) (headers : List (String × String))
    (body : Params) : Except String RequestDescriptor :=
  .ok { method := method, uri := uri, headers := headers, body := body }

/-- `Binance::get_signature`: lowercase hex of HMAC-SHA256 over the
canonical query string.  `create_hmac_key` (`Hmac::new_from_slice`)
accepts any key length, so the `Result` never errs; the HMAC primitive
itself is a parameter. -/
def get_signature (hmacSha256 : String → String → List Nat) (st : State)
    (params : Params) : String :=
  hexEncode (hmacSha256 st.secret (get_query_string params))

/-- `Binance::send_req_with_sign` up to the transport call: endpoint
lookup, signing, appending the `signature` key, request assembly. -/
def send_req_with_sign_request (hmacSha256 : String → String → List Nat)
    (st : State) (param : Params) (endpoint_key : String) :
    Except String RequestDescriptor := do
  let base ← match List.lookup endpoint_key st.endpoint with
    | some b => Except.ok b
    | none => Except.error "Endpoint not found"
  let uri := st.api_url ++ base.2
  let signature := get_signature hmacSha256 st param
  let param2 := Params.insert "signature" signature param
  build_request base.1 uri
    [("Content-Type", "application/x-www-form-urlencoded"),
     ("X-MBX-APIKEY", st.api_key)]
    param2

/-- `parse_symbol` (binance): split on `/`, concatenate the first two
chunks; `v[1]` panics when the input has no `/`. -/
def parse_symbol (s : List Char) : Outcome (List Char) :=
  match splitOnChar '/' s with
  | v0 :: v1 :: _ => .ok (v0 ++ v1)
  | _ => .panic "index out of bounds"

/-- `parse_orderbook` (binance): truncate to the shorter side, pair the
`i`-th ask with the `i`-th bid, fields via `as_str().unwrap_or_default()`. -/
def parse_orderbook (orderbook_res : Json) (symbol : String) :
    Except String OrderBook :=
  match (orderbook_res.index "asks").as_array with
  | none => .error "Asks field is not an array"
  | some asks =>
    match (orderbook_res.index "bids").as_array with
    | none => .error "Bids field is not an array"
    | some bids =>
      let len := min asks.length bids.length
      let orderbook_units := (List.range len).map (fun i =>
        let ask := asks.getD i .null
        let bid := bids.getD i .null
        { ask_price := ((ask.atIndex 0).as_str).getD ""
          bid_price := ((bid.atIndex 0).as_str).getD ""
          ask_size := ((ask.atIndex 1).as_str).getD ""
          bid_size := ((bid.atIndex 1).as_str).getD "" : OrderBookUnit })
      .ok { market := symbol, exchange := "Binance",
            orderbook_unit := orderbook_units }

/-- The symbol prologue of `Binance::get_current_price` (also
`get_order_book`, `cancel_order`): `req["symbol"].as_str().unwrap()`
followed by `parse_symbol`. -/
def get_current_price_symbol_step (req : Json) : Outcome (List Char) :=
  match (req.index "symbol").as_str with
  | none => .panic "called Option::unwrap on a None value"
  | some s => parse_symbol s.toList

/-- The symbol prologue of `Binance::place_order`:
`parse_symbol(req["symbol"].as_str().unwrap_or_default())`. -/
def place_order_symbol_step (req : Json) : Outcome (List Char) :=
  parse_symbol (((req.index "symbol").as_str).getD "").toList

/-- Price extraction of `Binance::get_current_price`:
`res["price"].as_str().unwrap_or("0.0")` — the wire string is kept
verbatim, with `"0.0"` as the absent-field default. -/
def current_price_from_response (res : Json) (symbol_name : String) : Price :=
  { exchange := "Binance", symbol := symbol_name,
    price := ((res.index "price").as_str).getD "0.0" }

end CoinTrade.Binance

namespace CoinTrade.Okx

/-- Okx facade state (`struct Okx`). -/
structure State where
  api_url : String
  api_key : String
  secret : String
  passphrase : String
  endpoint : List (String × String × String)

/-- `Okx::validate_api_credentials`. -/
def validate_api_credentials (api_key secret passphrase : String) :
    Except String Unit :=
  if api_key = "" ∨ secret = "" ∨ passphrase = "" then
    .error "API key, Secret, and Passphrase cannot be empty"
  else .ok ()

/-- The endpoint `BTreeMap` built in `Okx::new`, in its sorted iteration
order.  Four entries: no `coin_list`. -/
def endpoints : List (String × String × String) :=
  [("cancel_order", "POST", "api/v5/trade/cancel-order"),
   ("current_price", "GET", "api/v5/market/price"),
   ("make_order", "POST", "api/v5/trade/order"),
   ("order_book", "GET", "api/v5/market/books-full")]

/-- `Okx::new`. -/
def new (api_key secret passphrase : String) : Except String State := do
  validate_api_credentials api_key secret passphrase
  pure { api_url := "https://www.okx.com/", api_key := api_key,
         secret := secret, passphrase := passphrase, endpoint := endpoints }

/-- `Okx::build_request` (same pure assembly as the other providers). -/
def build_request (method uri : String) (headers : List (String × String))
    (body : Params) : Except String RequestDescriptor :=
  .ok { method := method, uri := uri, headers := headers, body := body }

/-- `Okx::get_signature`: base64 of HMAC-SHA256 over
`timestamp ++ method ++ endpoint ++ "?" ++ query_string`, the query string
being the canonical sorted join (inlined in the source, identical to
`get_query_string`). -/
def get_signature (hmacSha256 : String → String → List Nat)
    (b64 : List Nat → String) (st : State) (params : Params)
    (timestamp method endpoint : String) : String :=
  let query_string := get_query_string params
  b64 (hmacSha256 st.secret (timestamp ++ method ++ endpoint ++ "?" ++ query_string))

/-- `Okx::send_req_with_sign` up to the transport call.  The source signs
with the hard-coded method string `"POST"` and with `endpoint_key` (the
logical operation name) as the endpoint component, then looks the key up
in the endpoint table; the one `timestamp` value is used both inside the
signed string and as the `OK-ACCESS-TIMESTAMP` header. -/
def send_req_with_sign_request (hmacSha256 : String → String → List Nat)
    (b64 : List Nat → String) (st : State) (timestamp : String)
    (param : Params) (endpoint_key : String) :
    Except String RequestDescriptor := do
  let authorization := get_signature hmacSha256 b64 st param timestamp "POST" endpoint_key
  let base ← match List.lookup endpoint_key st.endpoint with
    | some b => Except.ok b
    | none => Except.error "Endpoint not found"
  let uri := st.api_url ++ base.2
  build_request base.1 uri
    [("OK-ACCESS-KEY", st.api_key),
     ("OK-ACCESS-SIGN", authorization),
     ("OK-ACCESS-TIMESTAMP", timestamp),
     ("OK-ACCESS-PASSPHRASE", st.passphrase),
     ("Content-Type", "application/json")]
    param

/-- `parse_symbol` (okx): `BASE/QUOTE` to `BASE-QUOTE`. -/
def parse_symbol (s : List Char) : Outcome (List Char) :=
  match splitOnChar '/' s with
  | v0 :: v1 :: _ => .ok (v0 ++ '-' :: v1)
  | _ => .panic "index out of bounds"

/-- `encode_symbol` (okx): `BASE-QUOTE` to `BASE/QUOTE`. -/
def encode_symbol (s : List Char) : Outcome (List Char) :=
  match splitOnChar '-' s with
  | v0 :: v1 :: _ => .ok (v0 ++ '/' :: v1)
  | _ => .panic "index out of bounds"

/-- `parse_orderbook` (okx): built from `data[0].bids` alone, copying
each bid entry into both the ask and the bid fields of the level
(source comment: `// Assuming a symmetrical book`). -/
def parse_orderbook (orderbook_res : Json) (symbol : String) :
    Except String OrderBook :=
  match (((orderbook_res.index "data").atIndex 0).index "bids").as_array with
  | none => .error "Failed to parse orderbook bids"
  | some bids =>
    let orderbook_unit := bids.map (fun unit =>
      let ask_price := ((unit.atIndex 0).as_str).getD ""
      let ask_size := ((unit.atIndex 1).as_str).getD ""
      { ask_price := ask_price, bid_price := ask_price,
        ask_size := ask_size, bid_size := ask_size : OrderBookUnit })
    .ok { market := symbol, exchange := "Okx", orderbook_unit := orderbook_unit }

end CoinTrade.Okx

namespace CoinTrade.Upbit

/-- Upbit facade state (`struct Upbit`). -/
structure State where
  api_url : String
  api_key : String
  secret : String
  endpoint : List (String × String × String)

/-- `Upbit::validate_api_credentials`. -/
def validate_api_credentials (api_key secret : String) : Except String Unit :=
  if api_key = "" ∨ secret = "" then
    .error "API key and Secret cannot be empty"
  else .ok ()

/-- The endpoint `BTreeMap` built in `Upbit::new`, in its sorted
iteration order.  Three entries: no `current_price`, no `coin_list`. -/
def endpoints : List (String × String × String) :=
  [("cancel_order", "DELETE", "v1/order"),
   ("make_order", "POST", "v1/orders"),
   ("order_book", "GET", "v1/orderbook")]

/-- `Upbit::new`. -/
def new (api_key secret : String) : Except String State := do
  validate_api_credentials api_key secret
  pure { api_url := "https://api.upbit.com/", api_key := api_key,
         secret := secret, endpoint := endpoints }

/-- `Upbit::build_request`. -/
def build_request (method uri : String) (headers : List (String × String))
    (body : Params) : Except String RequestDescriptor :=
  .ok { method := method, uri := uri, headers := headers, body := body }

/-- `Upbit::get_authorization_header`: SHA-512 hash of the canonical
query string, claims `BTreeMap` `{access_key, nonce, query_hash,
query_hash_alg}`, signed as a compact JWT.  `create_hmac_key` is
`Hmac::<Sha256>::new_from_slice(secret)`, so the token is signed HS256.
The SHA-512 primitive, the fresh `Uuid::new_v4` nonce and the compact
JWT serializer are parameters. -/
def get_authorization_header (sha512 : String → List Nat)
    (signCompact : JwtAlg → String → Params → Except String String)
    (nonce : String) (st : State) (param : Params) : Except String String := do
  let query := get_query_string param
  let query_hash := hexEncode (sha512 query)
  let payload := Params.ofList
    [("access_key", st.api_key), ("nonce", nonce),
     ("query_hash", query_hash), ("query_hash_alg", "SHA512")]
  let jwt_token ← signCompact .HS256 st.secret payload
  pure ("Bearer " ++ jwt_token)

/-- `Upbit::send_req_with_sign` up to the transport call. -/
def send_req_with_sign_request (sha512 : String → List Nat)
    (signCompact : JwtAlg → String → Params → Except String String)
    (nonce : String) (st : State) (param : Params) (endpoint_key : String) :
    Except String RequestDescriptor := do
  let authorization ← get_authorization_header sha512 signCompact nonce st param
  let base ← match List.lookup endpoint_key st.endpoint with
    | some b => Except.ok b
    | none => Except.error "Endpoint not found"
  let uri := st.api_url ++ base.2
  build_request base.1 uri
    [("Authorization", authorization), ("Content-Type", "application/json")]
    param

/-- `parse_symbol` (upbit): `BASE/QUOTE` to `QUOTE-BASE` (swapped). -/
def parse_symbol (s : List Char) : Outcome (List Char) :=
  match splitOnChar '/' s with
  | v0 :: v1 :: _ => .ok (v1 ++ '-' :: v0)
  | _ => .panic "index out of bounds"

/-- `encode_symbol` (upbit): `QUOTE-BASE` to `BASE/QUOTE` (swapped back). -/
def encode_symbol (s : List Char) : Outcome (List Char) :=
  match splitOnChar '-' s with
  | v0 :: v1 :: _ => .ok (v1 ++ '/' :: v0)
  | _ => .panic "index out of bounds"

/-- The symbol prologue of `Upbit::place_order`:
`req["symbol"].as_str().unwrap()` followed by `parse_symbol`. -/
def place_order_symbol_step (req : Json) : Outcome (List Char) :=
  match (req.index "symbol").as_str with
  | none => .panic "called Option::unwrap on a None value"
  | some s => parse_symbol s.toList

/-- One level of `parse_orderbook` (upbit): every field runs through
`as_f64().unwrap_or(0.0).to_string()`.  `f64ToString` is the composite
float parse/print on a JSON number's wire text; a wire *string* makes
`as_f64` answer `None`, so the field collapses to `(0.0).to_string()`,
which Rust prints as `"0"`. -/
def orderbook_field (f64ToString : String → String) (unit : Json)
    (key : String) : String :=
  match (unit.index key).as_f64_raw with
  | some raw => f64ToString raw
  | none => "0"

/-- `parse_orderbook` (upbit).  The market name is decoded with
`encode_symbol(...as_str().unwrap_or_default())`, which panics when the
market string holds no `-`, so the result is an `Outcome`. -/
def parse_orderbook (f64ToString : String → String) (orderbook_res : Json) :
    Outcome OrderBook :=
  match ((orderbook_res.atIndex 0).index "orderbook_units").as_array with
  | none => .err "orderbook_units field is not an array"
  | some units =>
    let orderbook_units := units.map (fun unit =>
      { ask_price := orderbook_field f64ToString unit "ask_price"
        bid_price := orderbook_field f64ToString unit "bid_price"
        ask_size := orderbook_field f64ToString unit "ask_size"
        bid_size := orderbook_field f64ToString unit "bid_size" : OrderBookUnit })
    match encode_symbol
        ((((orderbook_res.atIndex 0).index "market").as_str).getD "").toList with
    | .ok l => .ok { market := String.mk l, exchange := "Upbit",
                     orderbook_unit := orderbook_units }
    | .err e => .err e
    | .panic m => .panic m

end CoinTrade.Upbit

namespace CoinTrade.Bithumb

/-- Bithumb facade state (`struct Bithumb`). -/
structure State where
  api_url : String
  api_key : String
  secret : String
  endpoint : List (String × String × String)

/-- `Bithumb::validate_api_credentials`. -/
def validate_api_credentials (api_key secret : String) : Except String Unit :=
  if api_key = "" ∨ secret = "" then
    .error "API key and Secret cannot be empty"
  else .ok ()

/-- The endpoint `BTreeMap` built in `Bithumb::new`, in its sorted
iteration order.  All five operations are present. -/
def endpoints : List (String × String × String) :=
  [("cancel_order", "DELETE", "v1/order"),
   ("coin_list", "GET", "v1/market/all"),
   ("current_price", "GET", "v1/ticker"),
   ("make_order", "POST", "v1/orders"),
   ("order_book", "GET", "v1/orderbook")]

/-- `Bithumb::new`. -/
def new (api_key secret : String) : Except String State := do
  validate_api_credentials api_key secret
  pure { api_url := "https://api.bithumb.com/", api_key := api_key,
         secret := secret, endpoint := endpoints }

/-- `Bithumb::build_request`. -/
def build_request (method uri : String) (headers : List (String × String))
    (body : Params) : Except String RequestDescriptor :=
  .ok { method := method, uri := uri, headers := headers, body := body }

/-- `Bithumb::get_authorization_header`: identical to Upbit except that
`create_hmac_key` is `Hmac::<Sha512>::new_from_slice(secret)`, so the
compact JWT is signed HS512. -/
def get_authorization_header (sha512 : String → List Nat)
    (signCompact : JwtAlg → String → Params → Except String String)
    (nonce : String) (st : State) (param : Params) : Except String String := do
  let query := get_query_string param
  let query_hash := hexEncode (sha512 query)
  let payload := Params.ofList
    [("access_key", st.api_key), ("nonce", nonce),
     ("query_hash", query_hash), ("query_hash_alg", "SHA512")]
  let jwt_token ← signCompact .HS512 st.secret payload
  pure ("Bearer " ++ jwt_token)

/-- `Bithumb::send_req_with_sign` up to the transport call. -/
def send_req_with_sign_request (sha512 : String → List Nat)
    (signCompact : JwtAlg → String → Params → Except String String)
    (nonce : String) (st : State) (param : Params) (endpoint_key : String) :
    Except String RequestDescriptor := do
  let authorization ← get_authorization_header sha512 signCompact nonce st param
  let base ← match List.lookup endpoint_key st.endpoint with
    | some b => Except.ok b
    | none => Except.error "Endpoint not found"
  let uri := st.api_url ++ base.2
  build_request base.1 uri
    [("Authorization", authorization), ("Content-Type", "application/json")]
    param

/-- `parse_symbol` (bithumb): `BASE/QUOTE` to `QUOTE-BASE` (swapped). -/
def parse_symbol (s : List Char) : Outcome (List Char) :=
  match splitOnChar '/' s with
  | v0 :: v1 :: _ => .ok (v1 ++ '-' :: v0)
  | _ => .panic "index out of bounds"

/-- `encode_symbol` (bithumb): `QUOTE-BASE` to `BASE/QUOTE`. -/
def encode_symbol (s : List Char) : Outcome (List Char) :=
  match splitOnChar '-' s with
  | v0 :: v1 :: _ => .ok (v1 ++ '/' :: v0)
  | _ => .panic "index out of bounds"

/-- The price extraction of `Bithumb::get_current_price`:
`res[0]["trade_price"].as_f64().unwrap_or(0.0).to_string()`.  A wire
string makes `as_f64` answer `None`, so the price collapses to `"0"`
(Rust's rendering of `0.0`); a wire number runs through the float
parse/print composite `f64ToString`. -/
def current_price_from_response (f64ToString : String → String) (res : Json)
    (symbol_name : String) : Price :=
  let current_price := match ((res.atIndex 0).index "trade_price").as_f64_raw with
    | some raw => f64ToString raw
    | none => "0"
  { exchange := "Bithumb", symbol := symbol_name, price := current_price }

end CoinTrade.Bithumb

namespace CoinTrade

/-- An `Outcome`-level composition, used to state round trips of the
symbol translators. -/
def Outcome.andThen {α β : Type} : Outcome α → (α → Outcome β) → Outcome β
  | .ok a, f => f a
  | .err e, _ => .err e
  | .panic m, _ => .panic m

/-! # Theorems -/

theorem splitOnChar_ne_nil (c : Char) (l : List Char) : splitOnChar c l ≠ [] := by
  cases l with
  | nil => simp [splitOnChar]
  | cons x xs =>
    simp only [splitOnChar]
    rcases hs : splitOnChar c xs with _ | ⟨h, t⟩ <;> split <;> split <;> simp

/-- A separator-free chunk splits to itself. -/
theorem splitOnChar_not_mem {c : Char} {l : List Char} (h : c ∉ l) :
    splitOnChar c l = [l] := by
  induction l with
  | nil => rfl
  | cons x xs ih =>
    simp only [List.mem_cons, not_or] at h
    simp only [splitOnChar, ih h.2]
    rw [if_neg (fun hx => h.1 hx.symm)]

/-- Splitting `b ++ c :: q` with `c` absent from `b` and `q` gives the two
chunks `b` and `q`. -/
theorem splitOnChar_append {c : Char} {b q : List Char}
    (hb : c ∉ b) (hq : c ∉ q) :
    splitOnChar c (b ++ c :: q) = [b, q] := by
  induction b with
  | nil => simp [splitOnChar, splitOnChar_not_mem hq]
  | cons x xs ih =>
    simp only [List.mem_cons, not_or] at hb
    simp only [List.cons_append, splitOnChar, List.append_eq, ih hb.2]
    rw [if_neg (fun hx => hb.1 hx.symm)]

theorem hexEncode_length : ∀ bs : List Nat, (hexEncode bs).length = 2 * bs.length := by
  intro bs
  induction bs with
  | nil => rfl
  | cons b t ih =>
    have h : (hexEncode (b :: t)).length = 2 + (hexEncode t).length := by
      simp [hexEncode, String.length, byteToHex]
      omega
    rw [h, ih, List.length_cons]
    ring

theorem hexDigitChar_isLowerHex : ∀ n, n < 16 → isLowerHexChar (hexDigitChar n) = true := by
  decide

theorem byteToHex_chars (b : Nat) : ∀ ch ∈ byteToHex b, isLowerHexChar ch = true := by
  intro ch hch
  simp only [byteToHex, List.mem_cons, List.not_mem_nil, or_false] at hch
  rcases hch with h | h <;> subst h <;>
    exact hexDigitChar_isLowerHex _ (Nat.mod_lt _ (by omega))

theorem hexEncode_chars (bs : List Nat) :
    ((hexEncode bs).toList).all isLowerHexChar = true := by
  rw [List.all_eq_true]
  intro ch hch
  have : ch ∈ (bs.map byteToHex).flatten := hch
  rw [List.mem_flatten] at this
  obtain ⟨l, hl, hchl⟩ := this
  rw [List.mem_map] at hl
  obtain ⟨b, _, rfl⟩ := hl
  exact byteToHex_chars b ch hchl

/-- C8: for each provider defining both symbol translations (Okx, Upbit,
Bithumb), canonical-to-native (`parse_symbol`) and native-to-canonical
(`encode_symbol`) are mutual inverses: encode after parse is the identity
on every valid canonical form `BASE/QUOTE`, and parse after encode is the
identity on every valid native form (two non-empty separator-free chunks
joined by `-`).  Upbit and Bithumb swap base and quote in both
directions, so the swap cancels in the round trip.  (Binance defines no
native-to-canonical symbol translation, so no pair exists for it.) -/
theorem c8_symbol_translation_round_trip (b q : List Char)
    (hbne : b ≠ []) (hqne : q ≠ [])
    (hbs : '/' ∉ b) (hqs : '/' ∉ q) (hbd : '-' ∉ b) (hqd : '-' ∉ q) :
    (Outcome.andThen (Okx.parse_symbol (b ++ '/' :: q)) Okx.encode_symbol
        = .ok (b ++ '/' :: q)
      ∧ Outcome.andThen (Okx.encode_symbol (b ++ '-' :: q)) Okx.parse_symbol
        = .ok (b ++ '-' :: q))
  ∧ (Outcome.andThen (Upbit.parse_symbol (b ++ '/' :: q)) Upbit.encode_symbol
        = .ok (b ++ '/' :: q)
      ∧ Outcome.andThen (Upbit.encode_symbol (b ++ '-' :: q)) Upbit.parse_symbol
        = .ok (b ++ '-' :: q))
  ∧ (Outcome.andThen (Bithumb.parse_symbol (b ++ '/' :: q)) Bithumb.encode_symbol
        = .ok (b ++ '/' :: q)
      ∧ Outcome.andThen (Bithumb.encode_symbol (b ++ '-' :: q)) Bithumb.parse_symbol
        = .ok (b ++ '-' :: q)) := by
  have hps : splitOnChar '/' (b ++ '/' :: q) = [b, q] := splitOnChar_append hbs hqs
  have hpd : splitOnChar '-' (b ++ '-' :: q) = [b, q] := splitOnChar_append hbd hqd
  have hsw : splitOnChar '/' (q ++ '/' :: b) = [q, b] := splitOnChar_append hqs hbs
  have hdw : splitOnChar '-' (q ++ '-' :: b) = [q, b] := splitOnChar_append hqd hbd
  refine ⟨⟨?_, ?_⟩, ⟨?_, ?_⟩, ⟨?_, ?_⟩⟩ <;>
    simp [Okx.parse_symbol, Okx.encode_symbol, Upbit.parse_symbol,
      Upbit.encode_symbol, Bithumb.parse_symbol, Bithumb.encode_symbol,
      Outcome.andThen, hps, hpd, hsw, hdw]

/-- Witness for C8 at base `BTC`, quote `USDT`. -/
theorem c8_symbol_translation_round_trip_witness :
    ("BTC".toList ≠ [] ∧ "USDT".toList ≠ [] ∧ '/' ∉ "BTC".toList
      ∧ '/' ∉ "USDT".toList ∧ '-' ∉ "BTC".toList ∧ '-' ∉ "USDT".toList)
  ∧ ((Outcome.andThen (Okx.parse_symbol ("BTC".toList ++ '/' :: "USDT".toList))
          Okx.encode_symbol = .ok ("BTC".toList ++ '/' :: "USDT".toList)
      ∧ Outcome.andThen (Okx.encode_symbol ("BTC".toList ++ '-' :: "USDT".toList))
          Okx.parse_symbol = .ok ("BTC".toList ++ '-' :: "USDT".toList))
    ∧ (Outcome.andThen (Upbit.parse_symbol ("BTC".toList ++ '/' :: "USDT".toList))
          Upbit.encode_symbol = .ok ("BTC".toList ++ '/' :: "USDT".toList)
      ∧ Outcome.andThen (Upbit.encode_symbol ("BTC".toList ++ '-' :: "USDT".toList))
          Upbit.parse_symbol = .ok ("BTC".toList ++ '-' :: "USDT".toList))
    ∧ (Outcome.andThen (Bithumb.parse_symbol ("BTC".toList ++ '/' :: "USDT".toList))
          Bithumb.encode_symbol = .ok ("BTC".toList ++ '/' :: "USDT".toList)
      ∧ Outcome.andThen (Bithumb.encode_symbol ("BTC".toList ++ '-' :: "USDT".toList))
          Bithumb.parse_symbol = .ok ("BTC".toList ++ '-' :: "USDT".toList))) :=
  ⟨⟨by decide, by decide, by decide, by decide, by decide, by decide⟩,
   c8_symbol_translation_round_trip "BTC".toList "USDT".toList
     (by decide) (by decide) (by decide) (by decide) (by decide) (by decide)⟩

/-- C9: the facade symbol prologues panic — `unwrap` of a missing or
non-string `symbol` field, or an out-of-bounds `v[1]` when the string has
no `/` — instead of returning an error value. -/
theorem c9_symbol_parsing_panics :
    Binance.get_current_price_symbol_step (.obj [])
        = .panic "called Option::unwrap on a None value"
  ∧ Binance.get_current_price_symbol_step (.obj [("symbol", .num "42")])
        = .panic "called Option::unwrap on a None value"
  ∧ Binance.get_current_price_symbol_step (.obj [("symbol", .str "BTCUSDT")])
        = .panic "index out of bounds"
  ∧ Binance.place_order_symbol_step (.obj [])
        = .panic "index out of bounds"
  ∧ Upbit.place_order_symbol_step (.obj [])
        = .panic "called Option::unwrap on a None value" := by
  refine ⟨rfl, rfl, by decide, by decide, rfl⟩

/-- C10: an absent `Content-Type` header makes `send` encode the body as
`application/json`; the `Unsupported Content-Type` error arises only for
a present header whose value is neither the form nor the json type. -/
theorem c10_content_type_default (headers : List (String × String))
    (h : List.lookup "Content-Type" headers = none)
    (headers2 : List (String × String)) (e : String)
    (h2 : choose_body_encoding headers2 = .error e) :
    choose_body_encoding headers = .ok .json
  ∧ (∃ v, List.lookup "Content-Type" headers2 = some v
       ∧ v ≠ "application/x-www-form-urlencoded" ∧ v ≠ "application/json") := by
  constructor
  · simp [choose_body_encoding, content_type_of, h]
  · rcases hl : List.lookup "Content-Type" headers2 with _ | v
    · simp [choose_body_encoding, content_type_of, hl] at h2
    · by_cases hv1 : v = "application/x-www-form-urlencoded"
      · subst hv1
        simp [choose_body_encoding, content_type_of, hl] at h2
      · by_cases hv2 : v = "application/json"
        · subst hv2
          simp [choose_body_encoding, content_type_of, hl] at h2
        · exact ⟨v, rfl, hv1, hv2⟩

/-- Witness for C10: a request with only an `Accept` header resolves to
json encoding; a `text/plain` content type is the error case. -/
theorem c10_content_type_default_witness :
    (List.lookup "Content-Type" [("Accept", "application/json")] = none
      ∧ choose_body_encoding [("Content-Type", "text/plain")]
          = .error "Unsupported Content-Type")
  ∧ (choose_body_encoding [("Accept", "application/json")] = .ok .json
      ∧ ∃ v, List.lookup "Content-Type" [("Content-Type", "text/plain")] = some v
          ∧ v ≠ "application/x-www-form-urlencoded" ∧ v ≠ "application/json") :=
  ⟨⟨rfl, rfl⟩,
   c10_content_type_default [("Accept", "application/json")] rfl
     [("Content-Type", "text/plain")] "Unsupported Content-Type" rfl⟩

/-- C1: evaluation of the Okx signer at a concrete signed request.  The
`OK-ACCESS-SIGN` header is computed over
`timestamp ++ "POST" ++ endpoint_key ++ "?" ++ query` — the *logical
operation name* (`make_order`), not the registered URL path
(`api/v5/trade/order`) — so it differs from the value the spec describes
(shown here under an injective instantiation of the HMAC/base64
parameters).  The `OK-ACCESS-TIMESTAMP` header does carry the signed
timestamp byte-identically. -/
theorem c1_okx_signature_signs_key_not_path :
    Okx.send_req_with_sign_request (fun _ m => [m.length])
        (fun bs => String.intercalate "," (bs.map Nat.repr))
        { api_url := "https://www.okx.com/", api_key := "k", secret := "s",
          passphrase := "p", endpoint := Okx.endpoints }
        "1622547800000" [("instId", "BTC-USDT")] "make_order"
      = .ok { method := "POST", uri := "https://www.okx.com/api/v5/trade/order",
              headers := [("OK-ACCESS-KEY", "k"),
                          ("OK-ACCESS-SIGN", "43"),
                          ("OK-ACCESS-TIMESTAMP", "1622547800000"),
                          ("OK-ACCESS-PASSPHRASE", "p"),
                          ("Content-Type", "application/json")],
              body := [("instId", "BTC-USDT")] }
  ∧ "43" = (fun bs => String.intercalate "," (bs.map Nat.repr))
        ((fun (_ m : String) => [m.length]) "s"
          ("1622547800000" ++ "POST" ++ "make_order" ++ "?"
            ++ get_query_string [("instId", "BTC-USDT")]))
  ∧ "43" ≠ (fun bs => String.intercalate "," (bs.map Nat.repr))
        ((fun (_ m : String) => [m.length]) "s"
          ("1622547800000" ++ "POST" ++ "api/v5/trade/order" ++ "?"
            ++ get_query_string [("instId", "BTC-USDT")])) :=
  ⟨rfl, rfl, by decide⟩

/-- C2 counterexample: with a token serializer that records the signing
algorithm, the Upbit `Authorization` header is the HS256-signed token —
it is not the HMAC-SHA512-signed token the claim describes. -/
theorem c2_upbit_token_alg_counterexample :
    (Upbit.get_authorization_header (fun _ => [])
        (fun alg _ _ => match alg with
          | .HS256 => .ok "token-signed-hs256"
          | .HS512 => .ok "token-signed-hs512")
        "nonce-1"
        { api_url := "https://api.upbit.com/", api_key := "ak", secret := "sk",
          endpoint := Upbit.endpoints }
        []
      = .ok "Bearer token-signed-hs256")
  ∧ ("Bearer token-signed-hs256" : String) ≠ "Bearer token-signed-hs512" :=
  ⟨rfl, by decide⟩

/-- C2 amended: both HashedToken providers deliver
`Authorization: Bearer <token>` where the token signs the claims
`{access_key, nonce, query_hash = hex(SHA512(canonical query)),
query_hash_alg = "SHA512"}` — but Upbit signs the token with HMAC-SHA256
(its `create_hmac_key` builds an `Hmac<Sha256>`), while Bithumb signs
with HMAC-SHA512. -/
theorem c2_hashed_token_header (sha512 : String → List Nat)
    (signCompact : JwtAlg → String → Params → Except String String)
    (nonce api_key secret : String) (param : Params) :
    Upbit.get_authorization_header sha512 signCompact nonce
        { api_url := "https://api.upbit.com/", api_key := api_key,
          secret := secret, endpoint := Upbit.endpoints } param
      = Except.map (fun t => "Bearer " ++ t)
          (signCompact .HS256 secret
            [("access_key", api_key), ("nonce", nonce),
             ("query_hash", hexEncode (sha512 (get_query_string param))),
             ("query_hash_alg", "SHA512")])
  ∧ Bithumb.get_authorization_header sha512 signCompact nonce
        { api_url := "https://api.bithumb.com/", api_key := api_key,
          secret := secret, endpoint := Bithumb.endpoints } param
      = Except.map (fun t => "Bearer " ++ t)
          (signCompact .HS512 secret
            [("access_key", api_key), ("nonce", nonce),
             ("query_hash", hexEncode (sha512 (get_query_string param))),
             ("query_hash_alg", "SHA512")]) := by
  have hP : Params.ofList
      [("access_key", api_key), ("nonce", nonce),
       ("query_hash", hexEncode (sha512 (get_query_string param))),
       ("query_hash_alg", "SHA512")]
    = [("access_key", api_key), ("nonce", nonce),
       ("query_hash", hexEncode (sha512 (get_query_string param))),
       ("query_hash_alg", "SHA512")] := rfl
  constructor
  · rcases hsc : signCompact .HS256 secret
        [("access_key", api_key), ("nonce", nonce),
         ("query_hash", hexEncode (sha512 (get_query_string param))),
         ("query_hash_alg", "SHA512")] with e | tok <;>
      simp [Upbit.get_authorization_header, hP, hsc, Except.map]
  · rcases hsc : signCompact .HS512 secret
        [("access_key", api_key), ("nonce", nonce),
         ("query_hash", hexEncode (sha512 (get_query_string param))),
         ("query_hash_alg", "SHA512")] with e | tok <;>
      simp [Bithumb.get_authorization_header, hP, hsc, Except.map]

/-- C3: evaluation of the Okx order-book normalizer at one ask and two
bids.  The claim demands `min 1 2 = 1` level pairing `asks[0] = (100.1, 7)`
with `bids[0] = (99.9, 3)`; the code instead emits one level per *bid* and
copies each bid into the ask fields, never reading the ask list. -/
theorem c3_okx_orderbook_synthesizes_asks_from_bids :
    Okx.parse_orderbook
        (.obj [("data", .arr [.obj
          [("asks", .arr [.arr [.str "100.1", .str "7"]]),
           ("bids", .arr [.arr [.str "99.9", .str "3"],
                          .arr [.str "99.8", .str "4"]])]])])
        "BTC/USDT"
      = .ok { market := "BTC/USDT", exchange := "Okx",
              orderbook_unit :=
                [{ ask_price := "99.9", bid_price := "99.9",
                   ask_size := "3", bid_size := "3" },
                 { ask_price := "99.8", bid_price := "99.8",
                   ask_size := "4", bid_size := "4" }] } := rfl

/-- C4: evaluation of the Bithumb price normalizer (and the Upbit
order-book field normalizer) at a wire value that is already a JSON
string.  `as_f64()` answers `None` on a string, so
`unwrap_or(0.0).to_string()` collapses the value to `"0"` instead of
preserving it — the value is routed through the floating-point
accessor regardless of the float parse/print composite. -/
theorem c4_string_price_collapses_to_zero (f64ToString : String → String) :
    Bithumb.current_price_from_response f64ToString
        (.arr [.obj [("trade_price", .str "65000.50")]]) "BTC/KRW"
      = { exchange := "Bithumb", symbol := "BTC/KRW", price := "0" }
  ∧ Upbit.orderbook_field f64ToString
        (.obj [("ask_price", .str "1.50000000")]) "ask_price" = "0"
  ∧ ("0" : String) ≠ "65000.50" :=
  ⟨rfl, rfl, by decide⟩

/-- C5: a failing transport (`client.execute(...).await.unwrap()`) and a
failing body read (`response.bytes().await.expect(...)`) panic inside
`send` instead of surfacing as an `Err` to the caller. -/
theorem c5_transport_failure_panics :
    send { method := "GET",
           uri := "https://api1.binance.com/api/v3/depth?symbol=BTCUSDT",
           headers := [("Accept", "application/json")], body := [] }
        (.error "connection timed out")
      = .panic "called Result::unwrap on an Err value: connection timed out"
  ∧ send { method := "GET",
           uri := "https://api1.binance.com/api/v3/depth?symbol=BTCUSDT",
           headers := [("Accept", "application/json")], body := [] }
        (.ok { body_bytes := .error "stream closed" })
      = .panic "Failed to get response body" :=
  ⟨rfl, rfl⟩

/-- C6: Binance HMAC-Query signing.  For a parameter map without the
reserved `signature` key, the signature is the lowercase hex of
HMAC-SHA256 over the canonical query string of exactly those parameters
(64 characters for a 32-byte MAC), and `send_req_with_sign` appends the
`signature` key to the body only after signing.  The signer is a pure
function of `(secret, params)`, so determinism is definitional. -/
theorem c6_binance_hmac_query_signature
    (hmacSha256 : String → String → List Nat) (st : Binance.State)
    (param : Params) (endpoint_key : String) (base : String × String)
    (hsig : List.lookup "signature" param = none)
    (hlen : ∀ k m, (hmacSha256 k m).length = 32)
    (hep : List.lookup endpoint_key st.endpoint = some base) :
    Binance.get_signature hmacSha256 st param
        = hexEncode (hmacSha256 st.secret (get_query_string param))
  ∧ (Binance.get_signature hmacSha256 st param).length = 64
  ∧ ((Binance.get_signature hmacSha256 st param).toList).all isLowerHexChar = true
  ∧ Binance.send_req_with_sign_request hmacSha256 st param endpoint_key
      = .ok { method := base.1, uri := st.api_url ++ base.2,
              headers := [("Content-Type", "application/x-www-form-urlencoded"),
                          ("X-MBX-APIKEY", st.api_key)],
              body := Params.insert "signature"
                        (hexEncode (hmacSha256 st.secret (get_query_string param)))
                        param } := by
  refine ⟨rfl, ?_, ?_, ?_⟩
  · simp [Binance.get_signature, hexEncode_length, hlen]
  · exact hexEncode_chars _
  · simp [Binance.send_req_with_sign_request, hep, Binance.build_request,
      Binance.get_signature, Bind.bind, Except.bind]

/-- Witness for C6 at the spec's example credentials and a concrete
32-byte MAC. -/
theorem c6_binance_hmac_query_signature_witness :
    let hm : String → String → List Nat := fun _ _ => List.replicate 32 0
    let st : Binance.State := { api_url := "https://api1.binance.com/",
                                api_key := "test_api_key", secret := "test_secret",
                                endpoint := Binance.endpoints }
    let param : Params := [("symbol", "BTCUSDT"), ("timestamp", "1622547800")]
    (List.lookup "signature" param = none
      ∧ (∀ k m, (hm k m).length = 32)
      ∧ List.lookup "make_order" st.endpoint = some ("POST", "api/v3/order"))
  ∧ (Binance.get_signature hm st param
        = hexEncode (hm st.secret (get_query_string param))
    ∧ (Binance.get_signature hm st param).length = 64
    ∧ ((Binance.get_signature hm st param).toList).all isLowerHexChar = true
    ∧ Binance.send_req_with_sign_request hm st param "make_order"
        = .ok { method := "POST", uri := st.api_url ++ "api/v3/order",
                headers := [("Content-Type", "application/x-www-form-urlencoded"),
                            ("X-MBX-APIKEY", st.api_key)],
                body := Params.insert "signature"
                          (hexEncode (hm st.secret (get_query_string param)))
                          param }) :=
  ⟨⟨rfl, fun _ _ => by simp, rfl⟩,
   c6_binance_hmac_query_signature
     (fun _ _ => List.replicate 32 0)
     { api_url := "https://api1.binance.com/", api_key := "test_api_key",
       secret := "test_secret", endpoint := Binance.endpoints }
     [("symbol", "BTCUSDT"), ("timestamp", "1622547800")]
     "make_order" ("POST", "api/v3/order")
     rfl (fun _ _ => by simp) rfl⟩

/-- C7 counterexample: the Upbit registry lacks `current_price` and
`coin_list`, and the Okx registry lacks `coin_list`, so not every
provider maps each of the five logical operation names. -/
theorem c7_five_operations_counterexample :
    List.lookup "current_price" Upbit.endpoints = none
  ∧ List.lookup "coin_list" Upbit.endpoints = none
  ∧ List.lookup "coin_list" Okx.endpoints = none :=
  ⟨rfl, rfl, rfl⟩

/-- C7 amended: the registries map Binance and Bithumb to all five
operations, Okx to four (no `coin_list`), Upbit to three (no
`current_price`, no `coin_list`), each with its (method, path); looking
up an unregistered name in any provider's `send_req_with_sign` yields
`Err "Endpoint not found"` (for the HashedToken providers, once the
authorization header itself was produced). -/
theorem c7_endpoint_registry
    (hm : String → String → List Nat) (b64 : List Nat → String)
    (sha512 : String → List Nat)
    (signCompact : JwtAlg → String → Params → Except String String)
    (nonce t tok : String) (param : Params)
    (stB : Binance.State) (stO : Okx.State) (stU : Upbit.State)
    (stT : Bithumb.State)
    (keyB keyO keyU keyT : String)
    (hB : List.lookup keyB stB.endpoint = none)
    (hO : List.lookup keyO stO.endpoint = none)
    (hU : List.lookup keyU stU.endpoint = none)
    (hT : List.lookup keyT stT.endpoint = none)
    (hsU : Upbit.get_authorization_header sha512 signCompact nonce stU param
            = .ok tok)
    (hsT : Bithumb.get_authorization_header sha512 signCompact nonce stT param
            = .ok tok) :
    (List.lookup "make_order" Binance.endpoints = some ("POST", "api/v3/order")
      ∧ List.lookup "cancel_order" Binance.endpoints = some ("DELETE", "api/v3/order")
      ∧ List.lookup "order_book" Binance.endpoints = some ("GET", "api/v3/depth")
      ∧ List.lookup "current_price" Binance.endpoints = some ("GET", "api/v3/ticker/price")
      ∧ List.lookup "coin_list" Binance.endpoints = some ("GET", "api/v3/exchangeInfo"))
  ∧ (List.lookup "make_order" Bithumb.endpoints = some ("POST", "v1/orders")
      ∧ List.lookup "cancel_order" Bithumb.endpoints = some ("DELETE", "v1/order")
      ∧ List.lookup "order_book" Bithumb.endpoints = some ("GET", "v1/orderbook")
      ∧ List.lookup "current_price" Bithumb.endpoints = some ("GET", "v1/ticker")
      ∧ List.lookup "coin_list" Bithumb.endpoints = some ("GET", "v1/market/all"))
  ∧ (List.lookup "make_order" Okx.endpoints = some ("POST", "api/v5/trade/order")
      ∧ List.lookup "cancel_order" Okx.endpoints = some ("POST", "api/v5/trade/cancel-order")
      ∧ List.lookup "order_book" Okx.endpoints = some ("GET", "api/v5/market/books-full")
      ∧ List.lookup "current_price" Okx.endpoints = some ("GET", "api/v5/market/price")
      ∧ List.lookup "coin_list" Okx.endpoints = none)
  ∧ (List.lookup "make_order" Upbit.endpoints = some ("POST", "v1/orders")
      ∧ List.lookup "cancel_order" Upbit.endpoints = some ("DELETE", "v1/order")
      ∧ List.lookup "order_book" Upbit.endpoints = some ("GET", "v1/orderbook")
      ∧ List.lookup "current_price" Upbit.endpoints = none
      ∧ List.lookup "coin_list" Upbit.endpoints = none)
  ∧ Binance.send_req_with_sign_request hm stB param keyB
      = .error "Endpoint not found"
  ∧ Okx.send_req_with_sign_request hm b64 stO t param keyO
      = .error "Endpoint not found"
  ∧ Upbit.send_req_with_sign_request sha512 signCompact nonce stU param keyU
      = .error "Endpoint not found"
  ∧ Bithumb.send_req_with_sign_request sha512 signCompact nonce stT param keyT
      = .error "Endpoint not found" := by
  refine ⟨⟨rfl, rfl, rfl, rfl, rfl⟩, ⟨rfl, rfl, rfl, rfl, rfl⟩,
    ⟨rfl, rfl, rfl, rfl, rfl⟩, ⟨rfl, rfl, rfl, rfl, rfl⟩, ?_, ?_, ?_, ?_⟩
  · simp [Binance.send_req_with_sign_request, hB, Bind.bind, Except.bind]
  · simp [Okx.send_req_with_sign_request, hO, Bind.bind, Except.bind]
  · simp [Upbit.send_req_with_sign_request, hsU, hU, Bind.bind, Except.bind]
  · simp [Bithumb.send_req_with_sign_request, hsT, hT, Bind.bind, Except.bind]

/-- Witness for C7 at the unregistered operation name `foo`. -/
theorem c7_endpoint_registry_witness :
    let sha512 : String → List Nat := fun _ => []
    let signCompact : JwtAlg → String → Params → Except String String :=
      fun _ _ _ => .ok "T"
    let stB : Binance.State :=
      { api_url := "https://api1.binance.com/", api_key := "k", secret := "s",
        endpoint := Binance.endpoints }
    let stO : Okx.State :=
      { api_url := "https://www.okx.com/", api_key := "k", secret := "s",
        passphrase := "p", endpoint := Okx.endpoints }
    let stU : Upbit.State :=
      { api_url := "https://api.upbit.com/", api_key := "k", secret := "s",
        endpoint := Upbit.endpoints }
    let stT : Bithumb.State :=
      { api_url := "https://api.bithumb.com/", api_key := "k", secret := "s",
        endpoint := Bithumb.endpoints }
    (List.lookup "foo" stB.endpoint = none
      ∧ List.lookup "foo" stO.endpoint = none
      ∧ List.lookup "foo" stU.endpoint = none
      ∧ List.lookup "foo" stT.endpoint = none
      ∧ Upbit.get_authorization_header sha512 signCompact "n" stU []
          = .ok "Bearer T"
      ∧ Bithumb.get_authorization_header sha512 signCompact "n" stT []
          = .ok "Bearer T")
  ∧ (Binance.send_req_with_sign_request (fun _ _ => []) stB [] "foo"
        = .error "Endpoint not found"
    ∧ Okx.send_req_with_sign_request (fun _ _ => []) (fun _ => "") stO "0" [] "foo"
        = .error "Endpoint not found"
    ∧ Upbit.send_req_with_sign_request sha512 signCompact "n" stU [] "foo"
        = .error "Endpoint not found"
    ∧ Bithumb.send_req_with_sign_request sha512 signCompact "n" stT [] "foo"
        = .error "Endpoint not found") :=
  ⟨⟨rfl, rfl, rfl, rfl, rfl, rfl⟩,
   ⟨(c7_endpoint_registry (fun _ _ => []) (fun _ => "") (fun _ => [])
       (fun _ _ _ => .ok "T") "n" "0" "Bearer T" []
       { api_url := "https://api1.binance.com/", api_key := "k", secret := "s",
         endpoint := Binance.endpoints }
       { api_url := "https://www.okx.com/", api_key := "k", secret := "s",
         passphrase := "p", endpoint := Okx.endpoints }
       { api_url := "https://api.upbit.com/", api_key := "k", secret := "s",
         endpoint := Upbit.endpoints }
       { api_url := "https://api.bithumb.com/", api_key := "k", secret := "s",
         endpoint := Bithumb.endpoints }
       "foo" "foo" "foo" "foo" rfl rfl rfl rfl rfl rfl).2.2.2.2.1,
    (c7_endpoint_registry (fun _ _ => []) (fun _ => "") (fun _ => [])
       (fun _ _ _ => .ok "T") "n" "0" "Bearer T" []
       { api_url := "https://api1.binance.com/", api_key := "k", secret := "s",
         endpoint := Binance.endpoints }
       { api_url := "https://www.okx.com/", api_key := "k", secret := "s",
         passphrase := "p", endpoint := Okx.endpoints }
       { api_url := "https://api.upbit.com/", api_key := "k", secret := "s",
         endpoint := Upbit.endpoints }
       { api_url := "https://api.bithumb.com/", api_key := "k", secret := "s",
         endpoint := Bithumb.endpoints }
       "foo" "foo" "foo" "foo" rfl rfl rfl rfl rfl rfl).2.2.2.2.2.1,
    (c7_endpoint_registry (fun _ _ => []) (fun _ => "") (fun _ => [])
       (fun _ _ _ => .ok "T") "n" "0" "Bearer T" []
       { api_url := "https://api1.binance.com/", api_key := "k", secret := "s",
         endpoint := Binance.endpoints }
       { api_url := "https://www.okx.com/", api_key := "k", secret := "s",
         passphrase := "p", endpoint := Okx.endpoints }
       { api_url := "https://api.upbit.com/", api_key := "k", secret := "s",
         endpoint := Upbit.endpoints }
       { api_url := "https://api.bithumb.com/", api_key := "k", secret := "s",
         endpoint := Bithumb.endpoints }
       "foo" "foo" "foo" "foo" rfl rfl rfl rfl rfl rfl).2.2.2.2.2.2.1,
    (c7_endpoint_registry (fun _ _ => []) (fun _ => "") (fun _ => [])
       (fun _ _ _ => .ok "T") "n" "0" "Bearer T" []
       { api_url := "https://api1.binance.com/", api_key := "k", secret := "s",
         endpoint := Binance.endpoints }
       { api_url := "https://www.okx.com/", api_key := "k", secret := "s",
         passphrase := "p", endpoint := Okx.endpoints }
       { api_url := "https://api.upbit.com/", api_key := "k", secret := "s",
         endpoint := Upbit.endpoints }
       { api_url := "https://api.bithumb.com/", api_key := "k", secret := "s",
         endpoint := Bithumb.endpoints }
       "foo" "foo" "foo" "foo" rfl rfl rfl rfl rfl rfl).2.2.2.2.2.2.2⟩⟩

/-- Supporting fact (not a claim): the Binance order-book normalizer
truncates to the shorter side and pairs index-aligned entries. -/
theorem binance_parse_orderbook_pairs (res : Json) (symbol : String)
    (asks bids : List Json)
    (ha : res.index "asks" = .arr asks) (hb : res.index "bids" = .arr bids) :
    Binance.parse_orderbook res symbol
      = .ok { market := symbol, exchange := "Binance",
              orderbook_unit := (List.range (min asks.length bids.length)).map
                (fun i =>
                  { ask_price := (((asks.getD i .null).atIndex 0).as_str).getD ""
                    bid_price := (((bids.getD i .null).atIndex 0).as_str).getD ""
                    ask_size := (((asks.getD i .null).atIndex 1).as_str).getD ""
                    bid_size := (((bids.getD i .null).atIndex 1).as_str).getD "" }) } := by
  simp [Binance.parse_orderbook, ha, hb, Json.as_array]

end CoinTrade
